import Mathlib

/-!
Verification of the IMPMAL Shared Fate module's resource logic.

Shallow embedding of the module's data model and operations:
the `FatePointManager` operations (use/add/remove for Fate and Ruin),
the character-resolution helpers, the pre/post `updateActor` hooks that
produce fate-change chat messages, and the badge-class derivation of the
player-list displays.

Modelling conventions:
- JS numbers that hold point values are modelled as `Int`.
- Possibly-undefined JS fields (`fate.value`, settings reads followed by
  `?? d`) are `Option Int`, coalesced with `Option.getD` exactly where the
  source applies `??`.
- Each operation returns an `OpResult` recording the returned boolean, the
  notifications emitted via `notify`, and the single value (if any) the
  operation persisted (`character.update` of `system.fate.value`, or
  `setSetting` of the `gmRuin` key). `write = none` means the operation
  performed no state mutation, since that write is the only mutation an
  operation performs.
- The host's persistence call can reject; the `persistOk` parameter selects
  the `try` or `catch` branch of the source.
-/

/-- The `system.fate` field of a character record: `value` and `max` may each
be absent (JS `undefined`). -/
structure FateField where
  value : Option Int
  max : Option Int
deriving DecidableEq

/-- A host actor record, restricted to the fields the module reads:
`type`, `hasPlayerOwner`, the users with OWNER permission
(`testUserPermission(user, "OWNER")`), and `system.fate`. -/
structure ActorRec where
  id : String
  typ : String
  hasPlayerOwner : Bool
  owners : List String
  fate : Option FateField
deriving DecidableEq

/-- A host user record: id, GM flag, and the directly assigned character
(`user.character`), possibly absent. -/
structure UserRec where
  id : String
  isGM : Bool
  character : Option ActorRec
deriving DecidableEq

/-- The world's actor directory (`game.actors`). -/
structure GameState where
  actors : List ActorRec
deriving DecidableEq

/-- Ambient host state an operation reads: the acting session's user
(`game.user`) and the module settings. `gmRuin` and `gmRuinMax` are
`Option Int` because the source coalesces them (`?? 0`, `?? 5`). -/
structure Env where
  actingUser : UserRec
  allowPlayerUse : Bool
  showChatMessages : Bool
  gmRuin : Option Int
  gmRuinMax : Option Int
deriving DecidableEq

/-- A `{current, max}` pair as returned by `getFatePoints`/`getRuinPoints`. -/
structure FateData where
  current : Int
  max : Int
deriving DecidableEq

/-- A user-facing notification: the message key passed to `notify` and the
notification type (`"warn"`, `"error"`, `"info"`). -/
structure Notif where
  key : String
  level : String
deriving DecidableEq

/-- The observable outcome of one manager operation: the boolean it returns,
the notifications it emitted, and the value it persisted (if any). -/
structure OpResult where
  success : Bool
  notes : List Notif
  write : Option Int
deriving DecidableEq

/-- `FatePointManager.isGM`. -/
def isGM (user : UserRec) : Bool :=
  user.isGM

/-- The ownership fallback inside `FatePointManager.getPlayerCharacter`:
`game.actors.find(a => a.type === "character" && a.hasPlayerOwner &&
a.testUserPermission(user, "OWNER"))`. -/
def findOwnedCharacter (g : GameState) (u : UserRec) : Option ActorRec :=
  g.actors.find? fun a =>
    a.typ == "character" && a.hasPlayerOwner && a.owners.contains u.id

/-- `FatePointManager.getPlayerCharacter`. -/
def getPlayerCharacter (g : GameState) (user : Option UserRec) : Option ActorRec :=
  match user with
  | none => none
  | some u =>
    if isGM u then none
    else
      match u.character with
      | some c =>
        if c.typ == "character" then some c else findOwnedCharacter g u
      | none => findOwnedCharacter g u

/-- `FatePointManager.getFatePoints`. -/
def getFatePoints (g : GameState) (user : UserRec) : Option FateData :=
  if isGM user then none
  else
    match getPlayerCharacter g (some user) with
    | none => none
    | some c =>
      match c.fate with
      | none => none
      | some f => some ⟨f.value.getD 0, f.max.getD 0⟩

/-- `FatePointManager.getRuinPoints`. -/
def getRuinPoints (env : Env) : FateData :=
  ⟨env.gmRuin.getD 0, env.gmRuinMax.getD 5⟩

/-- `FatePointManager.useRuin`. -/
def useRuin (env : Env) (amount : Int) (persistOk : Bool) : OpResult :=
  if !env.actingUser.isGM then ⟨false, [⟨"GMOnly", "warn"⟩], none⟩
  else
    let ruinData := getRuinPoints env
    if ruinData.current < amount then ⟨false, [⟨"InsufficientRuin", "warn"⟩], none⟩
    else
      let newValue := max 0 (ruinData.current - amount)
      if persistOk then ⟨true, [], some newValue⟩
      else ⟨false, [⟨"UpdateFailed", "error"⟩], none⟩

/-- `FatePointManager.addRuin`. -/
def addRuin (env : Env) (amount : Int) (persistOk : Bool) : OpResult :=
  if !env.actingUser.isGM then ⟨false, [⟨"GMOnly", "warn"⟩], none⟩
  else
    let ruinData := getRuinPoints env
    let newValue := min ruinData.max (ruinData.current + amount)
    if persistOk then ⟨true, [], some newValue⟩
    else ⟨false, [⟨"UpdateFailed", "error"⟩], none⟩

/-- `FatePointManager.removeRuin`. -/
def removeRuin (env : Env) (amount : Int) (persistOk : Bool) : OpResult :=
  if !env.actingUser.isGM then ⟨false, [⟨"GMOnly", "warn"⟩], none⟩
  else
    let ruinData := getRuinPoints env
    let newValue := max 0 (ruinData.current - amount)
    if persistOk then ⟨true, [], some newValue⟩
    else ⟨false, [⟨"UpdateFailed", "error"⟩], none⟩

/-- `FatePointManager._canUseFate`. -/
def canUseFate (env : Env) (user : UserRec) : Bool :=
  if isGM user then false
  else if !env.allowPlayerUse then env.actingUser.isGM
  else user.id == env.actingUser.id || env.actingUser.isGM

/-- `FatePointManager.useFate`. -/
def useFate (g : GameState) (env : Env) (user : UserRec) (amount : Int)
    (persistOk : Bool) : OpResult :=
  if !canUseFate env user then ⟨false, [⟨"CannotUseFate", "warn"⟩], none⟩
  else
    match getPlayerCharacter g (some user) with
    | none => ⟨false, [⟨"NoCharacter", "warn"⟩], none⟩
    | some _ =>
      match getFatePoints g user with
      | none => ⟨false, [⟨"InsufficientFate", "warn"⟩], none⟩
      | some fatePoints =>
        if fatePoints.current < amount then
          ⟨false, [⟨"InsufficientFate", "warn"⟩], none⟩
        else
          let newValue := max 0 (fatePoints.current - amount)
          if persistOk then ⟨true, [], some newValue⟩
          else ⟨false, [⟨"UpdateFailed", "error"⟩], none⟩

/-- `FatePointManager.addFate`. -/
def addFate (g : GameState) (env : Env) (user : UserRec) (amount : Int)
    (persistOk : Bool) : OpResult :=
  if !env.actingUser.isGM then ⟨false, [⟨"GMOnly", "warn"⟩], none⟩
  else
    match getPlayerCharacter g (some user) with
    | none => ⟨false, [⟨"NoCharacter", "warn"⟩], none⟩
    | some _ =>
      match getFatePoints g user with
      | none => ⟨false, [⟨"NoFateData", "warn"⟩], none⟩
      | some fatePoints =>
        let newValue := min fatePoints.max (fatePoints.current + amount)
        if persistOk then ⟨true, [], some newValue⟩
        else ⟨false, [⟨"UpdateFailed", "error"⟩], none⟩

/-- `FatePointManager.removeFate`. -/
def removeFate (g : GameState) (env : Env) (user : UserRec) (amount : Int)
    (persistOk : Bool) : OpResult :=
  if !env.actingUser.isGM then ⟨false, [⟨"GMOnly", "warn"⟩], none⟩
  else
    match getPlayerCharacter g (some user) with
    | none => ⟨false, [⟨"NoCharacter", "warn"⟩], none⟩
    | some _ =>
      match getFatePoints g user with
      | none => ⟨false, [⟨"NoFateData", "warn"⟩], none⟩
      | some fatePoints =>
        let newValue := max 0 (fatePoints.current - amount)
        if persistOk then ⟨true, [], some newValue⟩
        else ⟨false, [⟨"UpdateFailed", "error"⟩], none⟩

/-- The chat message `sendFateChangeMessage` creates, abstracted to the
localization key and the values interpolated into the content. -/
structure ChatMsg where
  localeKey : String
  amount : Int
  oldValue : Int
  newValue : Int
  maxValue : Int
deriving DecidableEq

/-- `FatePointManager.sendFateChangeMessage`: returns the chat message
created, or `none` when `difference == 0` (the early return). -/
def sendFateChangeMessage (oldValue newValue maxValue difference : Int) :
    Option ChatMsg :=
  let amount := |difference|
  if difference > 0 then
    some ⟨"Chat.FateIncreased", amount, oldValue, newValue, maxValue⟩
  else if difference < 0 then
    some ⟨"Chat.FateDecreased", amount, oldValue, newValue, maxValue⟩
  else none

/-- The snapshot the `preUpdateActor` hook stores in the update's options bag
(`options._impmalSharedFate`). -/
structure TrackInfo where
  oldFateValue : Int
  actorId : String
deriving DecidableEq

/-- The `preUpdateActor` hook of `module.mjs`: attaches a snapshot when the
update touches `system.fate.value` of a character actor. -/
def preUpdateActor (actorType : String) (touchesFateValue : Bool)
    (fateValue : Option Int) (actorId : String) : Option TrackInfo :=
  if actorType != "character" then none
  else if !touchesFateValue then none
  else some ⟨fateValue.getD 0, actorId⟩

/-- What one session's `updateActor` handler does: the chat message it
creates (if any) and whether it refreshed the player-list UI. -/
structure HookResult where
  message : Option ChatMsg
  refreshed : Bool
deriving DecidableEq

/-- The `updateActor` hook of `module.mjs`, run in one session.
`actorId`, `fateValue`, `fateMax` come from the updated actor; `opts` is the
options bag (`some` when `preUpdateActor` attached a snapshot); `updUserId`
is the hook's `userId` argument (who performed the update); `sessionUserId`
is this session's `game.user.id`; `showChat` is the show-chat-messages
setting (world-scoped, hence identical in every session). -/
def updateActorHook (actorId : String) (fateValue fateMax : Option Int)
    (opts : Option TrackInfo) (updUserId sessionUserId : String)
    (showChat : Bool) : HookResult :=
  match opts with
  | none => ⟨none, false⟩
  | some t =>
    if t.actorId != actorId then ⟨none, false⟩
    else
      let newValue := fateValue.getD 0
      let oldValue := t.oldFateValue
      let maxValue := fateMax.getD 0
      if newValue = oldValue then ⟨none, false⟩
      else if updUserId != sessionUserId then ⟨none, true⟩
      else if !showChat then ⟨none, true⟩
      else ⟨sendFateChangeMessage oldValue newValue maxValue (newValue - oldValue), true⟩

/-- One update event observed by a set of connected sessions: every session
runs the same `updateActor` handler on the same broadcast arguments, differing
only in its own `game.user.id`. -/
def runUpdateHookAcrossSessions (sessionIds : List String) (actorId : String)
    (fateValue fateMax : Option Int) (opts : Option TrackInfo)
    (updUserId : String) (showChat : Bool) : List HookResult :=
  sessionIds.map fun sid =>
    updateActorHook actorId fateValue fateMax opts updUserId sid showChat

/-- Total number of chat messages produced by a list of hook runs. -/
def totalMessages (rs : List HookResult) : Nat :=
  rs.countP fun r => r.message.isSome

/-- The badge classes `UIHandler._addFateDisplay` puts on the fate container:
`exhausted` when `current === 0`, else `full` when `current === max`. -/
def addFateDisplayClasses (current maxv : Int) : List String :=
  if current = 0 then ["exhausted"]
  else if current = maxv then ["full"]
  else []

/-- The badge classes `UIHandler._addRuinDisplay` puts on the ruin container
(same derivation, duplicated in the source). -/
def addRuinDisplayClasses (current maxv : Int) : List String :=
  if current = 0 then ["exhausted"]
  else if current = maxv then ["full"]
  else []

/-- Concrete fate field used by the witnesses: value 3, max 5. -/
def wFate : FateField :=
  ⟨some 3, some 5⟩

/-- Concrete character actor used by the witnesses. -/
def wChar : ActorRec :=
  ⟨"a1", "character", true, ["p1"], some wFate⟩

/-- Concrete non-GM player user owning `wChar`. -/
def wPlayer : UserRec :=
  ⟨"p1", false, some wChar⟩

/-- Concrete GM user. -/
def wGMUser : UserRec :=
  ⟨"gm1", true, none⟩

/-- Concrete game state holding just `wChar`. -/
def wGame : GameState :=
  ⟨[wChar]⟩

/-- Environment where the acting session is the GM, ruin 3 of 5. -/
def wEnvGM : Env :=
  ⟨wGMUser, true, true, some 3, some 5⟩

/-- Environment where the acting session is the player `wPlayer`. -/
def wEnvPlayer : Env :=
  ⟨wPlayer, true, true, some 3, some 5⟩

/-- Environment where the acting session is the GM but allow-player-use is
disabled. -/
def wEnvGMNoPlayerUse : Env :=
  ⟨wGMUser, false, true, some 3, some 5⟩

/-- Environment where the acting session is the player and allow-player-use
is disabled. -/
def wEnvPlayerNoPlayerUse : Env :=
  ⟨wPlayer, false, true, some 3, some 5⟩

/-- Environment with GM acting whose stored ruin (10) exceeds the configured
maximum (5): the host does not guarantee the invariant. -/
def wEnvRuinHigh : Env :=
  ⟨wGMUser, true, true, some 10, some 5⟩

/-- Snapshot fixture: old fate value 3 on actor `a1`. -/
def wTrack : TrackInfo :=
  ⟨3, "a1"⟩

/-- Session id fixture for the user who performed an update. -/
def wUserId : String :=
  "u1"

/-- Session id fixture for another connected session. -/
def wOtherId : String :=
  "u2"

/-- Helper: any value `useRuin` persists is the clamped difference, and the
guard `current < amount` was false. -/
theorem useRuin_write_eq (env : Env) (amount : Int) (pOk : Bool) (v : Int)
    (h : (useRuin env amount pOk).write = some v) :
    amount ≤ (getRuinPoints env).current ∧
      v = max 0 ((getRuinPoints env).current - amount) := by
  simp only [useRuin] at h
  split at h
  · simp at h
  · split at h
    · simp at h
    · split at h
      · simp at h
        omega
      · simp at h

/-- Helper: any value `addRuin` persists is the clamped sum. -/
theorem addRuin_write_eq (env : Env) (amount : Int) (pOk : Bool) (v : Int)
    (h : (addRuin env amount pOk).write = some v) :
    v = min (getRuinPoints env).max ((getRuinPoints env).current + amount) := by
  simp only [addRuin] at h
  split at h
  · simp at h
  · split at h
    · simp at h
      omega
    · simp at h

/-- Helper: any value `removeRuin` persists is the clamped difference. -/
theorem removeRuin_write_eq (env : Env) (amount : Int) (pOk : Bool) (v : Int)
    (h : (removeRuin env amount pOk).write = some v) :
    v = max 0 ((getRuinPoints env).current - amount) := by
  simp only [removeRuin] at h
  split at h
  · simp at h
  · split at h
    · simp at h
      omega
    · simp at h

/-- Helper: any value `useFate` persists is the clamped difference against the
fate points the operation read, and the sufficiency guard passed. -/
theorem useFate_write_eq (g : GameState) (env : Env) (user : UserRec)
    (amount : Int) (pOk : Bool) (v : Int)
    (h : (useFate g env user amount pOk).write = some v) :
    ∃ fp, getFatePoints g user = some fp ∧ amount ≤ fp.current ∧
      v = max 0 (fp.current - amount) := by
  simp only [useFate] at h
  split at h
  · simp at h
  · split at h
    · simp at h
    · split at h
      · simp at h
      · rename_i fp hfp
        refine ⟨fp, hfp, ?_⟩
        split at h
        · simp at h
        · split at h
          · simp at h
            omega
          · simp at h

/-- Helper: any value `addFate` persists is the clamped sum against the fate
points the operation read. -/
theorem addFate_write_eq (g : GameState) (env : Env) (user : UserRec)
    (amount : Int) (pOk : Bool) (v : Int)
    (h : (addFate g env user amount pOk).write = some v) :
    ∃ fp, getFatePoints g user = some fp ∧
      v = min fp.max (fp.current + amount) := by
  simp only [addFate] at h
  split at h
  · simp at h
  · split at h
    · simp at h
    · split at h
      · simp at h
      · rename_i fp hfp
        refine ⟨fp, hfp, ?_⟩
        split at h
        · simp at h
          omega
        · simp at h

/-- Helper: any value `removeFate` persists is the clamped difference against
the fate points the operation read. -/
theorem removeFate_write_eq (g : GameState) (env : Env) (user : UserRec)
    (amount : Int) (pOk : Bool) (v : Int)
    (h : (removeFate g env user amount pOk).write = some v) :
    ∃ fp, getFatePoints g user = some fp ∧
      v = max 0 (fp.current - amount) := by
  simp only [removeFate] at h
  split at h
  · simp at h
  · split at h
    · simp at h
    · split at h
      · simp at h
      · rename_i fp hfp
        refine ⟨fp, hfp, ?_⟩
        split at h
        · simp at h
          omega
        · simp at h

/-- Helper: on success `useRuin` persisted the clamped difference. -/
theorem useRuin_success_write (env : Env) (amount : Int) (pOk : Bool) :
    (useRuin env amount pOk).success = true →
    (useRuin env amount pOk).write =
      some (max 0 ((getRuinPoints env).current - amount)) := by
  simp only [useRuin]
  split
  · intro h
    simp at h
  · split
    · intro h
      simp at h
    · split
      · intro _
        rfl
      · intro h
        simp at h

/-- Helper: on success `addRuin` persisted the clamped sum. -/
theorem addRuin_success_write (env : Env) (amount : Int) (pOk : Bool) :
    (addRuin env amount pOk).success = true →
    (addRuin env amount pOk).write =
      some (min (getRuinPoints env).max ((getRuinPoints env).current + amount)) := by
  simp only [addRuin]
  split
  · intro h
    simp at h
  · split
    · intro _
      rfl
    · intro h
      simp at h

/-- Helper: on success `removeRuin` persisted the clamped difference. -/
theorem removeRuin_success_write (env : Env) (amount : Int) (pOk : Bool) :
    (removeRuin env amount pOk).success = true →
    (removeRuin env amount pOk).write =
      some (max 0 ((getRuinPoints env).current - amount)) := by
  simp only [removeRuin]
  split
  · intro h
    simp at h
  · split
    · intro _
      rfl
    · intro h
      simp at h

/-- Helper: on success `useFate` persisted the clamped difference against the
fate points it read. -/
theorem useFate_success_write (g : GameState) (env : Env) (user : UserRec)
    (amount : Int) (pOk : Bool) :
    (useFate g env user amount pOk).success = true →
    ∃ fp, getFatePoints g user = some fp ∧
      (useFate g env user amount pOk).write =
        some (max 0 (fp.current - amount)) := by
  simp only [useFate]
  split
  · intro h
    simp at h
  · split
    · intro h
      simp at h
    · split
      · intro h
        simp at h
      · rename_i fp hfp
        split
        · intro h
          simp at h
        · split
          · intro _
            exact ⟨fp, hfp, rfl⟩
          · intro h
            simp at h

/-- Helper: on success `addFate` persisted the clamped sum against the fate
points it read. -/
theorem addFate_success_write (g : GameState) (env : Env) (user : UserRec)
    (amount : Int) (pOk : Bool) :
    (addFate g env user amount pOk).success = true →
    ∃ fp, getFatePoints g user = some fp ∧
      (addFate g env user amount pOk).write =
        some (min fp.max (fp.current + amount)) := by
  simp only [addFate]
  split
  · intro h
    simp at h
  · split
    · intro h
      simp at h
    · split
      · intro h
        simp at h
      · rename_i fp hfp
        split
        · intro _
          exact ⟨fp, hfp, rfl⟩
        · intro h
          simp at h

/-- Helper: on success `removeFate` persisted the clamped difference against
the fate points it read. -/
theorem removeFate_success_write (g : GameState) (env : Env) (user : UserRec)
    (amount : Int) (pOk : Bool) :
    (removeFate g env user amount pOk).success = true →
    ∃ fp, getFatePoints g user = some fp ∧
      (removeFate g env user amount pOk).write =
        some (max 0 (fp.current - amount)) := by
  simp only [removeFate]
  split
  · intro h
    simp at h
  · split
    · intro h
      simp at h
    · split
      · intro h
        simp at h
      · rename_i fp hfp
        split
        · intro _
          exact ⟨fp, hfp, rfl⟩
        · intro h
          simp at h

/-- C1: for every Fate or Ruin state with `0 ≤ current ≤ max` and every
amount `≥ 0`, a successful `useFate`, `removeFate`, `useRuin` or `removeRuin`
writes `max(0, current - amount)`, and any written value is nonnegative. -/
theorem use_remove_writes_clamped_difference (g : GameState) (env : Env)
    (user : UserRec) (amount : Int) (pOk : Bool)
    (hamt : 0 ≤ amount)
    (hruin : 0 ≤ (getRuinPoints env).current ∧
      (getRuinPoints env).current ≤ (getRuinPoints env).max) :
    (∀ fp, getFatePoints g user = some fp →
      0 ≤ fp.current → fp.current ≤ fp.max →
      (((useFate g env user amount pOk).success = true →
          (useFate g env user amount pOk).write =
            some (max 0 (fp.current - amount))) ∧
        ((removeFate g env user amount pOk).success = true →
          (removeFate g env user amount pOk).write =
            some (max 0 (fp.current - amount)))))
    ∧ ((useRuin env amount pOk).success = true →
        (useRuin env amount pOk).write =
          some (max 0 ((getRuinPoints env).current - amount)))
    ∧ ((removeRuin env amount pOk).success = true →
        (removeRuin env amount pOk).write =
          some (max 0 ((getRuinPoints env).current - amount)))
    ∧ (∀ v, ((useFate g env user amount pOk).write = some v ∨
          (removeFate g env user amount pOk).write = some v ∨
          (useRuin env amount pOk).write = some v ∨
          (removeRuin env amount pOk).write = some v) → 0 ≤ v) := by
  refine ⟨?_, useRuin_success_write env amount pOk,
    removeRuin_success_write env amount pOk, ?_⟩
  · intro fp hfp _ _
    constructor
    · intro hs
      obtain ⟨fp2, hfp2, hw⟩ := useFate_success_write g env user amount pOk hs
      rw [hfp] at hfp2
      cases hfp2
      exact hw
    · intro hs
      obtain ⟨fp2, hfp2, hw⟩ := removeFate_success_write g env user amount pOk hs
      rw [hfp] at hfp2
      cases hfp2
      exact hw
  · intro v hv
    rcases hv with h | h | h | h
    · obtain ⟨fp, _, _, hv⟩ := useFate_write_eq g env user amount pOk v h
      omega
    · obtain ⟨fp, _, hv⟩ := removeFate_write_eq g env user amount pOk v h
      omega
    · obtain ⟨_, hv⟩ := useRuin_write_eq env amount pOk v h
      omega
    · have hv := removeRuin_write_eq env amount pOk v h
      omega

/-- C2: for every Fate or Ruin state with `0 ≤ current ≤ max` and every
amount `≥ 0`, a successful `addFate` or `addRuin` writes
`min(max, current + amount)`, and any written value never exceeds the
resource's max. -/
theorem add_writes_clamped_sum (g : GameState) (env : Env)
    (user : UserRec) (amount : Int) (pOk : Bool)
    (hamt : 0 ≤ amount)
    (hruin : 0 ≤ (getRuinPoints env).current ∧
      (getRuinPoints env).current ≤ (getRuinPoints env).max) :
    (∀ fp, getFatePoints g user = some fp →
      0 ≤ fp.current → fp.current ≤ fp.max →
      (((addFate g env user amount pOk).success = true →
          (addFate g env user amount pOk).write =
            some (min fp.max (fp.current + amount))) ∧
        ∀ v, (addFate g env user amount pOk).write = some v → v ≤ fp.max))
    ∧ ((addRuin env amount pOk).success = true →
        (addRuin env amount pOk).write =
          some (min (getRuinPoints env).max ((getRuinPoints env).current + amount)))
    ∧ (∀ v, (addRuin env amount pOk).write = some v →
        v ≤ (getRuinPoints env).max) := by
  refine ⟨?_, addRuin_success_write env amount pOk, ?_⟩
  · intro fp hfp _ _
    constructor
    · intro hs
      obtain ⟨fp2, hfp2, hw⟩ := addFate_success_write g env user amount pOk hs
      rw [hfp] at hfp2
      cases hfp2
      exact hw
    · intro v hv
      obtain ⟨fp2, hfp2, hveq⟩ := addFate_write_eq g env user amount pOk v hv
      rw [hfp] at hfp2
      cases hfp2
      omega
  · intro v hv
    have hveq := addRuin_write_eq env amount pOk v hv
    omega

/-- C1 witness: GM spends 1 fate of a character at 3 of 5; the persisted
value is max(0, 3 - 1) = 2. -/
theorem use_remove_writes_clamped_difference_witness :
    (useFate wGame wEnvGM wPlayer 1 true).write = some (max 0 ((3 : Int) - 1)) :=
  (((use_remove_writes_clamped_difference wGame wEnvGM wPlayer 1 true
    (by decide) (by decide)).1 ⟨3, 5⟩ (by decide) (by decide) (by decide)).1)
    (by decide)

/-- C2 witness: GM adds 1 fate to a character at 3 of 5; the persisted value
is min(5, 3 + 1) = 4. -/
theorem add_writes_clamped_sum_witness :
    (addFate wGame wEnvGM wPlayer 1 true).write = some (min 5 ((3 : Int) + 1)) :=
  (((add_writes_clamped_sum wGame wEnvGM wPlayer 1 true
    (by decide) (by decide)).1 ⟨3, 5⟩ (by decide) (by decide) (by decide)).1)
    (by decide)

/-- C3 counterexample: with an unrestricted amount the clamps do not keep the
written value inside `[0, max]`. `addRuin` with amount -10 at ruin 3 of 5
writes -7 < 0, and `removeRuin` with amount 0 at stored ruin 10 of max 5
writes 10 > 5. -/
theorem writes_within_bounds_counterexample :
    ((addRuin wEnvGM (-10) true).write = some (-7) ∧ (-7 : Int) < 0)
    ∧ ((removeRuin wEnvRuinHigh 0 true).write = some 10 ∧
        (getRuinPoints wEnvRuinHigh).max < 10) := by
  decide

/-- C3 (amended): for every operation, provided the amount is nonnegative and
the resource state read by the operation satisfies `0 ≤ current ≤ max`, any
value the operation writes satisfies `0 ≤ value ≤ max` of that resource. -/
theorem writes_within_bounds (g : GameState) (env : Env) (user : UserRec)
    (amount : Int) (pOk : Bool)
    (hamt : 0 ≤ amount)
    (hruin : 0 ≤ (getRuinPoints env).current ∧
      (getRuinPoints env).current ≤ (getRuinPoints env).max)
    (hfate : ∀ fp, getFatePoints g user = some fp →
      0 ≤ fp.current ∧ fp.current ≤ fp.max) :
    (∀ v, ((useFate g env user amount pOk).write = some v ∨
        (addFate g env user amount pOk).write = some v ∨
        (removeFate g env user amount pOk).write = some v) →
      ∃ fp, getFatePoints g user = some fp ∧ 0 ≤ v ∧ v ≤ fp.max)
    ∧ (∀ v, ((useRuin env amount pOk).write = some v ∨
        (addRuin env amount pOk).write = some v ∨
        (removeRuin env amount pOk).write = some v) →
      0 ≤ v ∧ v ≤ (getRuinPoints env).max) := by
  constructor
  · intro v hv
    rcases hv with h | h | h
    · obtain ⟨fp, hfp, hle, hveq⟩ := useFate_write_eq g env user amount pOk v h
      have hb := hfate fp hfp
      exact ⟨fp, hfp, by omega, by omega⟩
    · obtain ⟨fp, hfp, hveq⟩ := addFate_write_eq g env user amount pOk v h
      have hb := hfate fp hfp
      exact ⟨fp, hfp, by omega, by omega⟩
    · obtain ⟨fp, hfp, hveq⟩ := removeFate_write_eq g env user amount pOk v h
      have hb := hfate fp hfp
      exact ⟨fp, hfp, by omega, by omega⟩
  · intro v hv
    rcases hv with h | h | h
    · obtain ⟨hle, hveq⟩ := useRuin_write_eq env amount pOk v h
      omega
    · have hveq := addRuin_write_eq env amount pOk v h
      omega
    · have hveq := removeRuin_write_eq env amount pOk v h
      omega

/-- C3 witness: GM spends 1 fate at 3 of 5; the written value 2 satisfies
`0 ≤ 2 ≤ max`. -/
theorem writes_within_bounds_witness :
    ∃ fp, getFatePoints wGame wPlayer = some fp ∧ 0 ≤ (2 : Int) ∧ 2 ≤ fp.max :=
  (writes_within_bounds wGame wEnvGM wPlayer 1 true (by decide) (by decide)
    (fun fp hfp => by
      have h35 : getFatePoints wGame wPlayer = some (⟨3, 5⟩ : FateData) := by
        decide
      rw [h35, Option.some.injEq] at hfp
      subst hfp
      exact ⟨by decide, by decide⟩)).1 2 (Or.inl (by decide))

/-- C4: when the acting session is not a GM, each of `addFate`, `removeFate`,
`addRuin`, `removeRuin` and `useRuin` returns false, emits exactly the GMOnly
warning notification, and performs no write (no Fate or Ruin state changes). -/
theorem nonGM_gm_only_ops_fail (g : GameState) (env : Env) (user : UserRec)
    (amount : Int) (pOk : Bool) (h : env.actingUser.isGM = false) :
    addFate g env user amount pOk = ⟨false, [⟨"GMOnly", "warn"⟩], none⟩
    ∧ removeFate g env user amount pOk = ⟨false, [⟨"GMOnly", "warn"⟩], none⟩
    ∧ addRuin env amount pOk = ⟨false, [⟨"GMOnly", "warn"⟩], none⟩
    ∧ removeRuin env amount pOk = ⟨false, [⟨"GMOnly", "warn"⟩], none⟩
    ∧ useRuin env amount pOk = ⟨false, [⟨"GMOnly", "warn"⟩], none⟩ := by
  simp [addFate, removeFate, addRuin, removeRuin, useRuin, h]

/-- C4 witness: the player session calling `useRuin` is refused with the
GMOnly warning and nothing is written. -/
theorem nonGM_gm_only_ops_fail_witness :
    useRuin wEnvPlayer 1 true = ⟨false, [⟨"GMOnly", "warn"⟩], none⟩ :=
  (nonGM_gm_only_ops_fail wGame wEnvPlayer wPlayer 1 true (by decide)).2.2.2.2

/-- C5: `useFate` returns false, emits a warning notification and performs no
write whenever the actor is unauthorized (`_canUseFate` false), no character
is resolvable for the user, or the character's current fate is below the
requested amount. -/
theorem useFate_failure_conditions (g : GameState) (env : Env)
    (user : UserRec) (amount : Int) (pOk : Bool)
    (h : canUseFate env user = false ∨
      getPlayerCharacter g (some user) = none ∨
      ∃ fp, getFatePoints g user = some fp ∧ fp.current < amount) :
    (useFate g env user amount pOk).success = false ∧
    (useFate g env user amount pOk).write = none ∧
    ∃ n, n ∈ (useFate g env user amount pOk).notes ∧ n.level = "warn" := by
  have hres : ∃ k, useFate g env user amount pOk
      = ⟨false, [⟨k, "warn"⟩], none⟩ := by
    rcases h with hc | hpc | ⟨fp, hfp, hlt⟩
    · exact ⟨"CannotUseFate", by simp [useFate, hc]⟩
    · cases hcu : canUseFate env user
      · exact ⟨"CannotUseFate", by simp [useFate, hcu]⟩
      · exact ⟨"NoCharacter", by simp [useFate, hcu, hpc]⟩
    · cases hcu : canUseFate env user
      · exact ⟨"CannotUseFate", by simp [useFate, hcu]⟩
      · cases hpc : getPlayerCharacter g (some user)
        · exact ⟨"NoCharacter", by simp [useFate, hcu, hpc]⟩
        · exact ⟨"InsufficientFate", by simp [useFate, hcu, hpc, hfp, hlt]⟩
  obtain ⟨k, hk⟩ := hres
  rw [hk]
  exact ⟨rfl, rfl, ⟨k, "warn"⟩, by simp, rfl⟩

/-- C5 witness: spending 7 fate with only 3 available fails with a warning
and no write. -/
theorem useFate_failure_conditions_witness :
    (useFate wGame wEnvGM wPlayer 7 true).success = false ∧
    (useFate wGame wEnvGM wPlayer 7 true).write = none ∧
    ∃ n, n ∈ (useFate wGame wEnvGM wPlayer 7 true).notes ∧ n.level = "warn" :=
  useFate_failure_conditions wGame wEnvGM wPlayer 7 true
    (Or.inr (Or.inr ⟨⟨3, 5⟩, by decide, by decide⟩))

/-- C9: `useFate` targeting a user whose isGM flag is true always returns
false with the CannotUseFate warning and writes nothing, for every acting
session and every amount. -/
theorem useFate_gm_target_always_fails (g : GameState) (env : Env)
    (user : UserRec) (amount : Int) (pOk : Bool) (h : user.isGM = true) :
    useFate g env user amount pOk = ⟨false, [⟨"CannotUseFate", "warn"⟩], none⟩ := by
  simp [useFate, canUseFate, isGM, h]

/-- C9 witness: even the GM session cannot spend the GM user's fate. -/
theorem useFate_gm_target_always_fails_witness :
    useFate wGame wEnvGM wGMUser 1 true
      = ⟨false, [⟨"CannotUseFate", "warn"⟩], none⟩ :=
  useFate_gm_target_always_fails wGame wEnvGM wGMUser 1 true (by decide)

/-- C6: with allow-player-use disabled, `useFate` on a non-GM user's own
character fails when that user's session acts, and succeeds when a GM session
acts (given a resolvable character, sufficient fate, and a successful
persistence call). -/
theorem allow_player_use_disabled (g : GameState) (env : Env)
    (user : UserRec) (amount : Int) (pOk : Bool)
    (hset : env.allowPlayerUse = false) (hngm : user.isGM = false) :
    (env.actingUser = user → (useFate g env user amount pOk).success = false)
    ∧ (env.actingUser.isGM = true →
        ∀ c fp, getPlayerCharacter g (some user) = some c →
          getFatePoints g user = some fp → amount ≤ fp.current → pOk = true →
          (useFate g env user amount pOk).success = true) := by
  constructor
  · intro hact
    have hcu : canUseFate env user = false := by
      simp [canUseFate, isGM, hngm, hset, hact]
    simp [useFate, hcu]
  · intro hgm c fp hpc hfp hle hok
    have hcu : canUseFate env user = true := by
      simp [canUseFate, isGM, hngm, hset, hgm]
    have hnlt : ¬ fp.current < amount := by omega
    simp [useFate, hcu, hpc, hfp, hnlt, hok]

/-- C6 witness: with allow-player-use off, `useFate` on the player's own
character fails for the player session and succeeds for the GM session. -/
theorem allow_player_use_disabled_witness :
    (useFate wGame wEnvPlayerNoPlayerUse wPlayer 1 true).success = false ∧
    (useFate wGame wEnvGMNoPlayerUse wPlayer 1 true).success = true :=
  ⟨(allow_player_use_disabled wGame wEnvPlayerNoPlayerUse wPlayer 1 true
      (by decide) (by decide)).1 (by decide),
    (allow_player_use_disabled wGame wEnvGMNoPlayerUse wPlayer 1 true
      (by decide) (by decide)).2 (by decide) wChar ⟨3, 5⟩ (by decide)
      (by decide) (by decide) rfl⟩

/-- C7: a character update whose old and new fate values coincide produces no
chat message: the post-update handler returns before messaging, and
`sendFateChangeMessage` with difference 0 creates nothing. -/
theorem zero_difference_no_message (actorId : String)
    (fateValue fateMax : Option Int) (opts : Option TrackInfo)
    (updUserId sessionUserId : String) (showChat : Bool) :
    (∀ t, opts = some t → fateValue.getD 0 = t.oldFateValue →
      updateActorHook actorId fateValue fateMax opts updUserId sessionUserId
        showChat = ⟨none, false⟩)
    ∧ ∀ o n m, sendFateChangeMessage o n m 0 = none := by
  constructor
  · intro t hopts heq
    subst hopts
    simp only [updateActorHook]
    split
    · rfl
    · simp [heq]
  · intro o n m
    simp [sendFateChangeMessage]

/-- C7 witness: an update leaving fate at 3 yields no message and no
refresh in the acting session. -/
theorem zero_difference_no_message_witness :
    updateActorHook wChar.id (some 3) (some 5) (some wTrack) wUserId wUserId
      true = ⟨none, false⟩ :=
  (zero_difference_no_message wChar.id (some 3) (some 5) (some wTrack)
    wUserId wUserId true).1 wTrack rfl (by decide)

/-- C8 (amended): for an observed fate change with chat messages enabled,
exactly one chat message is produced across all connected sessions: only the
session whose user id equals the update's acting userId messages, every other
session only refreshes. -/
theorem one_message_across_sessions (sessionIds : List String)
    (actorId : String) (fateValue fateMax : Option Int) (t : TrackInfo)
    (updUserId : String)
    (hnd : sessionIds.Nodup) (hmem : updUserId ∈ sessionIds)
    (hact : t.actorId = actorId) (hch : fateValue.getD 0 ≠ t.oldFateValue) :
    totalMessages (runUpdateHookAcrossSessions sessionIds actorId fateValue
      fateMax (some t) updUserId true) = 1
    ∧ ∀ sid ∈ sessionIds, sid ≠ updUserId →
        updateActorHook actorId fateValue fateMax (some t) updUserId sid true
          = ⟨none, true⟩ := by
  have h1 : (t.actorId != actorId) = false := by
    simp [hact]
  have hother : ∀ sid, sid ≠ updUserId →
      updateActorHook actorId fateValue fateMax (some t) updUserId sid true
        = ⟨none, true⟩ := by
    intro sid hne
    have h3 : (updUserId != sid) = true := by
      simp only [bne_iff_ne, ne_eq]
      exact fun hh => hne hh.symm
    simp [updateActorHook, h1, hch, h3]
  have hself : (updateActorHook actorId fateValue fateMax (some t) updUserId
      updUserId true).message.isSome = true := by
    have h3 : (updUserId != updUserId) = false := by
      simp
    simp only [updateActorHook, h1, Bool.false_eq_true, if_false, h3]
    rw [if_neg hch]
    simp only [Bool.not_true, Bool.false_eq_true, if_false]
    simp only [sendFateChangeMessage]
    split
    · simp
    · split
      · simp
      · omega
  constructor
  · unfold totalMessages runUpdateHookAcrossSessions
    rw [List.countP_map]
    have hcount : List.countP
        ((fun r => r.message.isSome) ∘ fun sid =>
          updateActorHook actorId fateValue fateMax (some t) updUserId sid
            true) sessionIds
        = List.countP (fun sid => sid == updUserId) sessionIds := by
      apply List.countP_congr
      intro sid _
      by_cases hs : sid = updUserId
      · subst hs
        simp [Function.comp, hself]
      · simp [Function.comp, hother sid hs, hs]
    rw [hcount]
    have hone := List.nodup_iff_count_eq_one.mp hnd updUserId hmem
    simpa [List.count_eq_countP] using hone
  · intro sid _ hne
    exact hother sid hne

/-- C8 witness: two connected sessions, the acting one among them, chat
messages enabled, fate moved from 3 to 2: exactly one message in total. -/
theorem one_message_across_sessions_witness :
    totalMessages (runUpdateHookAcrossSessions [wUserId, wOtherId] wChar.id
      (some 2) (some 5) (some wTrack) wUserId true) = 1 :=
  (one_message_across_sessions [wUserId, wOtherId] wChar.id (some 2) (some 5)
    wTrack wUserId (by decide) (by decide) (by decide) (by decide)).1

/-- C8 counterexample: the same observed fate change with the
show-chat-messages setting disabled produces zero messages in total, not
exactly one. -/
theorem one_message_across_sessions_counterexample :
    totalMessages (runUpdateHookAcrossSessions [wUserId, wOtherId] wChar.id
      (some 2) (some 5) (some wTrack) wUserId false) ≠ 1 := by
  decide

/-- C10: in both badge derivations `exhausted` has priority over `full`:
`current = 0` is classed exhausted even when `max = 0`, and `full` appears
only when `current = max` with `current > 0` (for states with nonnegative
current). -/
theorem exhausted_priority_over_full (current maxv : Int) (h : 0 ≤ current) :
    (current = 0 → addFateDisplayClasses current maxv = ["exhausted"]
      ∧ addRuinDisplayClasses current maxv = ["exhausted"])
    ∧ ("full" ∈ addFateDisplayClasses current maxv →
        current = maxv ∧ 0 < current)
    ∧ ("full" ∈ addRuinDisplayClasses current maxv →
        current = maxv ∧ 0 < current) := by
  refine ⟨?_, ?_, ?_⟩
  · intro h0
    subst h0
    simp [addFateDisplayClasses, addRuinDisplayClasses]
  · intro hmem
    simp only [addFateDisplayClasses] at hmem
    split at hmem
    · rw [List.mem_singleton] at hmem
      exact absurd hmem (by decide)
    · split at hmem
      · rename_i h0 heq
        exact ⟨heq, by omega⟩
      · simp at hmem
  · intro hmem
    simp only [addRuinDisplayClasses] at hmem
    split at hmem
    · rw [List.mem_singleton] at hmem
      exact absurd hmem (by decide)
    · split at hmem
      · rename_i h0 heq
        exact ⟨heq, by omega⟩
      · simp at hmem

/-- C10 witness: at current 0 with max 0 both displays are classed
exhausted, not full. -/
theorem exhausted_priority_over_full_witness :
    addFateDisplayClasses 0 0 = ["exhausted"]
      ∧ addRuinDisplayClasses 0 0 = ["exhausted"] :=
  (exhausted_priority_over_full 0 0 (by decide)).1 rfl
